import Mathlib

/-!
Verification of the eratemanager / cemc_rates extract-normalize-diff pipeline.

The definitions below are a shallow embedding of the Python sources:
  * `eratemanager/parser.py` — section location and numeric field extraction,
  * `cemc_rates/normalizer.py` — the normalized rate schema,
  * `cemc_rates/diffing.py` — comparison summaries, diffing and rendering,
  * `tools/check_rate_change_and_open_issue.py` — the snapshot-diff job.

Python floats are modelled as rationals (`ℚ`), Python `None` as a `null`
sentinel in an explicit value type, Python dicts as association lists read
through `get`-style accessors, and the regular expressions of the parser as
token sequences interpreted by a backtracking matcher with Python's
leftmost, greedy-with-backtracking search semantics (`re.IGNORECASE` is
modelled by ASCII case folding, `\d` and `\s` by their ASCII meaning, which
covers every character reachable from the embedded patterns).
-/

namespace CemcRates

/-- ASCII case folding of a character code, modelling `re.IGNORECASE`. -/
def lowerNat (n : Nat) : Nat :=
  if 65 ≤ n ∧ n ≤ 90 then n + 32 else n

/-- Case-insensitive character comparison. -/
def ciEq (a b : Char) : Bool :=
  lowerNat a.toNat == lowerNat b.toNat

/-- Membership in Python's `\s` class (ASCII fragment). -/
def isPySpace (c : Char) : Bool :=
  c.toNat == 32 || c.toNat == 9 || c.toNat == 10 || c.toNat == 13 ||
    c.toNat == 11 || c.toNat == 12

/-- Membership in Python's `\d` class (ASCII fragment). -/
def isDigitCh (c : Char) : Bool :=
  decide (48 ≤ c.toNat ∧ c.toNat ≤ 57)

/-- One alternative inside a regex character class: a literal character,
`\d`, or `\s`. -/
inductive CItem where
  | ch : Char → CItem
  | digit : CItem
  | space : CItem
deriving DecidableEq

/-- A single-character regex item: a literal or a character class. -/
inductive Tok where
  | lit : Char → Tok
  | cls : List CItem → Tok
deriving DecidableEq

/-- Regex quantifiers used by the parser's patterns. -/
inductive Quant where
  | one : Quant
  | opt : Quant
  | star : Quant
  | plus : Quant
deriving DecidableEq

/-- A quantified single-character regex item. -/
structure QTok where
  tok : Tok
  q : Quant
deriving DecidableEq

def citemMatches (it : CItem) (c : Char) : Bool :=
  match it with
  | CItem.ch d => ciEq c d
  | CItem.digit => isDigitCh c
  | CItem.space => isPySpace c

def tokMatches (t : Tok) (c : Char) : Bool :=
  match t with
  | Tok.lit d => ciEq c d
  | Tok.cls items => items.any (fun it => citemMatches it c)

/-- Candidate consumption counts of a quantified item against the input, in
the order a greedy backtracking engine tries them (maximal first). Every
item matches exactly one character, so the possible counts are the prefix
run lengths. -/
def candidates (qt : QTok) (cs : List Char) : List Nat :=
  let run := (cs.takeWhile (fun c => tokMatches qt.tok c)).length
  match qt.q with
  | Quant.one => if 1 ≤ run then [1] else []
  | Quant.opt => if 1 ≤ run then [1, 0] else [0]
  | Quant.star => (List.range (run + 1)).reverse
  | Quant.plus => ((List.range run).map (fun k => k + 1)).reverse

/-- Backtracking matcher in continuation-passing style: match the token
sequence against a prefix of `cs`, trying greedy choices first, and hand
the remaining input to the continuation; the first overall success wins,
exactly as in Python's regex engine. -/
def matchK {α : Type} (toks : List QTok) (cs : List Char) (k : List Char → Option α) :
    Option α :=
  match toks with
  | [] => k cs
  | qt :: rest => (candidates qt cs).findSome? (fun n => matchK rest (cs.drop n) k)

/-- Does the token sequence match starting exactly at the head of `cs`? -/
def matchAt (toks : List QTok) (cs : List Char) : Bool :=
  (matchK toks cs (fun r => some r)).isSome

/-- Model of `re.search(pattern, text, pos)`: the start offset of the
leftmost match at or after `pos`, or `none`. -/
def searchPos (toks : List QTok) (cs : List Char) (pos : Nat) : Option Nat :=
  (List.range' pos (cs.length + 1 - pos)).findSome?
    (fun i => if matchAt toks (cs.drop i) then some i else none)

/-- A field pattern with exactly one capture group: the tokens before the
group, the group itself, and the tokens after it. -/
structure FPat where
  pre : List QTok
  grp : List QTok
  post : List QTok

/-- Match a field pattern at the head of `cs` and return the substring
captured by the group; backtracking crosses the group boundaries just as in
a real engine. -/
def capAt (p : FPat) (cs : List Char) : Option (List Char) :=
  matchK p.pre cs (fun r1 =>
    matchK p.grp r1 (fun r2 =>
      matchK p.post r2 (fun _ => some (r1.take (r1.length - r2.length)))))

/-- Model of `re.search` returning `m.group(1)`: leftmost match at or after
`pos`, capture of its single group. -/
def searchCap (p : FPat) (cs : List Char) (pos : Nat) : Option (List Char) :=
  (List.range' pos (cs.length + 1 - pos)).findSome? (fun i => capAt p (cs.drop i))

/-- Value of a digit string, most significant first. -/
def digitsToNat (cs : List Char) : Nat :=
  cs.foldl (fun a c => 10 * a + (c.toNat - 48)) 0

/-- Model of the builtin `float()` on the literals reachable from the
parser's capture groups after comma stripping: strings of digits with at
most one decimal point (and at least one digit) convert; everything else —
in particular several dots, or no digit at all — raises `ValueError`,
modelled as `none`. Sign, exponent and `inf`/`nan` forms are not reachable
from the embedded patterns and are rejected by the model. -/
def pyFloat? (cs : List Char) : Option ℚ :=
  if (cs.all (fun c => isDigitCh c || c == '.')) ∧ (cs.count '.' ≤ 1) ∧
      (cs.any isDigitCh) then
    let ip := cs.takeWhile (fun c => c != '.')
    let fp := (cs.dropWhile (fun c => c != '.')).drop 1
    some (mkRat (digitsToNat ip * 10 ^ fp.length + digitsToNat fp) (10 ^ fp.length))
  else none

/-- Model of `str.strip()` (ASCII whitespace fragment). -/
def pyStrip (cs : List Char) : List Char :=
  ((cs.dropWhile isPySpace).reverse.dropWhile isPySpace).reverse

/-- Embedding of `_clean_float` from `eratemanager/parser.py`: `None`
propagates; otherwise thousands-separator commas are removed
(`s.replace(",", "")`), the string is stripped, a leading zero is prepended
to a bare-decimal literal, and the result is converted with `float()`,
`ValueError` becoming `None`. -/
def _clean_float (s : Option (List Char)) : Option ℚ :=
  match s with
  | none => none
  | some s0 =>
    let s1 := pyStrip (s0.filter (fun c => c != ','))
    let s2 := if s1.head? = some '.' then '0' :: s1 else s1
    pyFloat? s2

def litToks (s : String) : List QTok :=
  s.data.map (fun c => { tok := Tok.lit c, q := Quant.one })

/-- The `\s+` item. -/
def wsPlus : QTok := { tok := Tok.cls [CItem.space], q := Quant.plus }

/-- The `\s*` item. -/
def wsStar : QTok := { tok := Tok.cls [CItem.space], q := Quant.star }

/-- The `[:\s]*` item. -/
def colonWsStar : QTok := { tok := Tok.cls [CItem.ch ':', CItem.space], q := Quant.star }

/-- The `\$?` item. -/
def dollarOpt : QTok := { tok := Tok.lit '$', q := Quant.opt }

/-- The `[-–]` item (hyphen or en-dash). -/
def dashTok : QTok := { tok := Tok.cls [CItem.ch '-', CItem.ch '–'], q := Quant.one }

/-- The capture group `([\d,]*\.?\d+)`. -/
def intLitGrp : List QTok :=
  [{ tok := Tok.cls [CItem.digit, CItem.ch ','], q := Quant.star },
   { tok := Tok.lit '.', q := Quant.opt },
   { tok := Tok.cls [CItem.digit], q := Quant.plus }]

/-- The capture group `([\d.,]*\.?\d+)`. -/
def rateLitGrp : List QTok :=
  [{ tok := Tok.cls [CItem.digit, CItem.ch '.', CItem.ch ','], q := Quant.star },
   { tok := Tok.lit '.', q := Quant.opt },
   { tok := Tok.cls [CItem.digit], q := Quant.plus }]

/-- `Customer\s+Charge[:\s]*\$?([\d,]*\.?\d+)`. -/
def custPat : FPat :=
  { pre := litToks "Customer" ++ [wsPlus] ++ litToks "Charge" ++ [colonWsStar, dollarOpt],
    grp := intLitGrp,
    post := [] }

/-- `Energy\s+Charge[:\s]*\$?([\d.,]*\.?\d+)\$?`. -/
def energyPat : FPat :=
  { pre := litToks "Energy" ++ [wsPlus] ++ litToks "Charge" ++ [colonWsStar, dollarOpt],
    grp := rateLitGrp,
    post := [dollarOpt] }

/-- `TVA\s+Fuel\s+Charge[:\s]*\$?([\d.,]*\.?\d+)\$?`. -/
def tvaPat : FPat :=
  { pre := litToks "TVA" ++ [wsPlus] ++ litToks "Fuel" ++ [wsPlus] ++ litToks "Charge" ++
      [colonWsStar, dollarOpt],
    grp := rateLitGrp,
    post := [dollarOpt] }

/-- `Part\s*A[:\s]*\$?([\d,]*\.?\d+)`. -/
def partAPat : FPat :=
  { pre := litToks "Part" ++ [wsStar] ++ litToks "A" ++ [colonWsStar, dollarOpt],
    grp := intLitGrp,
    post := [] }

/-- `Part\s*B[:\s]*\$?([\d,]*\.?\d+)`. -/
def partBPat : FPat :=
  { pre := litToks "Part" ++ [wsStar] ++ litToks "B" ++ [colonWsStar, dollarOpt],
    grp := intLitGrp,
    post := [] }

/-- `RESIDENTIAL\s+RATE\s+[-–]\s+SCHEDULE\s+RS`. -/
def rsHeaderPat : List QTok :=
  litToks "RESIDENTIAL" ++ [wsPlus] ++ litToks "RATE" ++ [wsPlus, dashTok, wsPlus] ++
    litToks "SCHEDULE" ++ [wsPlus] ++ litToks "RS"

/-- `SUPPLEMENTAL\s+RESIDENTIAL\s+RATE\s+[-–]\s+SCHEDULE\s+SRS`. -/
def srsHeaderPat : List QTok :=
  litToks "SUPPLEMENTAL" ++ [wsPlus] ++ litToks "RESIDENTIAL" ++ [wsPlus] ++ litToks "RATE" ++
    [wsPlus, dashTok, wsPlus] ++ litToks "SCHEDULE" ++ [wsPlus] ++ litToks "SRS"

/-- `GENERAL\s+POWER\s+RATE`. -/
def gpHeaderPat : List QTok :=
  litToks "GENERAL" ++ [wsPlus] ++ litToks "POWER" ++ [wsPlus] ++ litToks "RATE"

/-- `SEASONAL\s+RESIDENTIAL\s+RATE\s+[-–]\s+SCHEDULE`. -/
def seasonalHeaderPat : List QTok :=
  litToks "SEASONAL" ++ [wsPlus] ++ litToks "RESIDENTIAL" ++ [wsPlus] ++ litToks "RATE" ++
    [wsPlus, dashTok, wsPlus] ++ litToks "SCHEDULE"

/-- `RESIDENTIAL\s+TIME`. -/
def resTimeHeaderPat : List QTok :=
  litToks "RESIDENTIAL" ++ [wsPlus] ++ litToks "TIME"

/-- `RESIDENTIAL\s+TIME\s+OF\s+USE\s+RATE\s+[-–]\s+SCHEDULE`. -/
def touHeaderPat : List QTok :=
  litToks "RESIDENTIAL" ++ [wsPlus] ++ litToks "TIME" ++ [wsPlus] ++ litToks "OF" ++
    [wsPlus] ++ litToks "USE" ++ [wsPlus] ++ litToks "RATE" ++ [wsPlus, dashTok, wsPlus] ++
    litToks "SCHEDULE"

/-- Embedding of `_find_section` from `eratemanager/parser.py`. The Python
`next_header_patterns=None` default and an empty list behave identically
(`if not next_header_patterns`), so the argument is modelled as a plain
list. `text[start:]` is `drop start`, and `text[start:end]` is
`take (end - start)` of it. -/
def _find_section (text : List Char) (header_pattern : List QTok)
    (next_header_patterns : List (List QTok)) : Option (List Char) :=
  match searchPos header_pattern text 0 with
  | none => none
  | some start =>
    match next_header_patterns with
    | [] => some (text.drop start)
    | _ =>
      match next_header_patterns.filterMap (fun pat => searchPos pat text (start + 1)) with
      | [] => some (text.drop start)
      | e :: es => some ((text.drop start).take (es.foldl min e - start))

/-- A Python value as stored in the parser's dictionaries: `None`, a bool,
a float (modelled as `ℚ`), or a string. -/
inductive Val where
  | null : Val
  | bool : Bool → Val
  | num : ℚ → Val
  | str : List Char → Val
deriving DecidableEq

def toVal : Option ℚ → Val
  | none => Val.null
  | some q => Val.num q

/-- A Python dict with string keys, as an association list (first binding
wins, matching dict semantics for the key-unique dicts the code builds). -/
abbrev Dict := List (String × Val)

/-- First binding of a key in an association list. -/
def alookup {β : Type} (k : String) : List (String × β) → Option β
  | [] => none
  | (k2, v) :: rest => if k = k2 then some v else alookup k rest

/-- Model of `d.get(k)`: `None` when the key is absent. -/
def dGet (d : Dict) (k : String) : Val :=
  (alookup k d).getD Val.null

/-- Model of `d.get(k, default)`. -/
def dGetD (d : Dict) (k : String) (v : Val) : Val :=
  (alookup k d).getD v

/-- Model of `d.keys()`. -/
def dKeys {β : Type} (d : List (String × β)) : List String :=
  d.map Prod.fst

/-- Model of `d[k]`: a missing key raises `KeyError`. -/
def bracket {β : Type} (d : List (String × β)) (k : String) : Except String β :=
  match alookup k d with
  | none => Except.error ("KeyError: " ++ k)
  | some v => Except.ok v

/-- The inlined `_clean_float(m.group(1)) if m else None` idiom of the field
extractors (the Field Extractor contract `extract_numeric` of the spec). -/
def extract_numeric (p : FPat) (cs : List Char) : Option ℚ :=
  _clean_float (searchCap p cs 0)

/-- The `{"is_present": False, "raw_section": None}` record both residential
parsers return for a missing section; note the numeric keys are absent. -/
def absentRecord : Dict :=
  [("is_present", Val.bool false), ("raw_section", Val.null)]

/-- Embedding of `parse_residential_standard`. The argument is the optional
section text from `_find_section`; `if not section` is true for `None` and
for the empty string. -/
def parse_residential_standard (sectionText : Option (List Char)) : Dict :=
  match sectionText with
  | none => absentRecord
  | some cs =>
    if cs = [] then absentRecord
    else
      [("is_present", Val.bool true),
       ("raw_section", Val.str cs),
       ("customer_charge_usd_per_month", toVal (extract_numeric custPat cs)),
       ("energy_rate_usd_per_kwh", toVal (extract_numeric energyPat cs)),
       ("tva_fuel_rate_usd_per_kwh", toVal (extract_numeric tvaPat cs))]

/-- Embedding of `parse_residential_supplemental`. -/
def parse_residential_supplemental (sectionText : Option (List Char)) : Dict :=
  match sectionText with
  | none => absentRecord
  | some cs =>
    if cs = [] then absentRecord
    else
      [("is_present", Val.bool true),
       ("raw_section", Val.str cs),
       ("customer_charge_part_a_usd_per_month", toVal (extract_numeric partAPat cs)),
       ("customer_charge_part_b_usd_per_month", toVal (extract_numeric partBPat cs)),
       ("energy_rate_usd_per_kwh", toVal (extract_numeric energyPat cs)),
       ("tva_fuel_rate_usd_per_kwh", toVal (extract_numeric tvaPat cs))]

/-- Embedding of the `parse_residential_seasonal` placeholder. -/
def parse_residential_seasonal (sectionText : Option (List Char)) : Dict :=
  match sectionText with
  | none =>
    [("is_present", Val.bool false), ("raw_section", Val.null),
     ("summer_rate_usd_per_kwh", Val.null), ("winter_rate_usd_per_kwh", Val.null),
     ("summer_months", Val.null), ("winter_months", Val.null)]
  | some cs =>
    if cs = [] then
      [("is_present", Val.bool false), ("raw_section", Val.null),
       ("summer_rate_usd_per_kwh", Val.null), ("winter_rate_usd_per_kwh", Val.null),
       ("summer_months", Val.null), ("winter_months", Val.null)]
    else
      [("is_present", Val.bool true), ("raw_section", Val.str cs),
       ("summer_rate_usd_per_kwh", Val.null), ("winter_rate_usd_per_kwh", Val.null),
       ("summer_months", Val.null), ("winter_months", Val.null)]

/-- Embedding of the `parse_residential_tou` placeholder. -/
def parse_residential_tou (sectionText : Option (List Char)) : Dict :=
  match sectionText with
  | none =>
    [("is_present", Val.bool false), ("raw_section", Val.null),
     ("on_peak_rate_usd_per_kwh", Val.null), ("off_peak_rate_usd_per_kwh", Val.null),
     ("shoulder_rate_usd_per_kwh", Val.null), ("on_peak_hours", Val.null),
     ("off_peak_hours", Val.null), ("shoulder_hours", Val.null)]
  | some cs =>
    if cs = [] then
      [("is_present", Val.bool false), ("raw_section", Val.null),
       ("on_peak_rate_usd_per_kwh", Val.null), ("off_peak_rate_usd_per_kwh", Val.null),
       ("shoulder_rate_usd_per_kwh", Val.null), ("on_peak_hours", Val.null),
       ("off_peak_hours", Val.null), ("shoulder_hours", Val.null)]
    else
      [("is_present", Val.bool true), ("raw_section", Val.str cs),
       ("on_peak_rate_usd_per_kwh", Val.null), ("off_peak_rate_usd_per_kwh", Val.null),
       ("shoulder_rate_usd_per_kwh", Val.null), ("on_peak_hours", Val.null),
       ("off_peak_hours", Val.null), ("shoulder_hours", Val.null)]

/-- The fixed-shape dict returned by `parse_pdf`, as a structure. -/
structure ParsedDocument where
  raw_text : List Char
  residential_standard : Dict
  residential_supplemental : Dict
  residential_seasonal : Dict
  residential_tou : Dict
deriving DecidableEq

/-- Embedding of `parse_pdf` downstream of PDF text extraction (the
`pdf_to_text` collaborator is out of scope per the spec; its output is the
`text` argument). -/
def parse_pdf_text (text : List Char) : ParsedDocument :=
  let rs_section := _find_section text rsHeaderPat [srsHeaderPat, gpHeaderPat]
  let srs_section := _find_section text srsHeaderPat [gpHeaderPat]
  let seasonal_section := _find_section text seasonalHeaderPat [gpHeaderPat, resTimeHeaderPat]
  let tou_section := _find_section text touHeaderPat [gpHeaderPat]
  { raw_text := text,
    residential_standard := parse_residential_standard rs_section,
    residential_supplemental := parse_residential_supplemental srs_section,
    residential_seasonal := parse_residential_seasonal seasonal_section,
    residential_tou := parse_residential_tou tou_section }

/-- Exact multiplication of a rational by a natural number, written so that
the kernel can evaluate it (`mkRat` normalizes). -/
def ratMulNat (q : ℚ) (k : Nat) : ℚ :=
  mkRat (q.num * k) q.den

/-- Round half to even on `ℚ`, modelling Python's `round` tie behaviour.
With `n = ⌊q⌋` the fractional part is `r / den`; it is compared against
`1/2` by comparing `2 * r` with `den`. -/
def roundHalfEven (q : ℚ) : ℤ :=
  let n := q.floor
  let r := q.num - n * (q.den : ℤ)
  if 2 * r < (q.den : ℤ) then n
  else if (q.den : ℤ) < 2 * r then n + 1
  else if n % 2 = 0 then n else n + 1

/-- Model of `round(x, 5)` at the rational level:
`roundHalfEven(x * 100000) / 100000`. -/
def round5 (q : ℚ) : ℚ :=
  mkRat (roundHalfEven (ratMulNat q 100000)) 100000

/-- Embedding of `_cents` from `cemc_rates/normalizer.py`:
`round(val * 100, 5) if val is not None else None`. A non-null non-numeric
value would raise `TypeError` in Python and is outside the function's
domain (parser fields are float-or-None); the model maps such values to
null. -/
def _cents (v : Val) : Val :=
  match v with
  | Val.num q => Val.num (round5 (ratMulNat q 100))
  | _ => Val.null

/-- The dict returned by `normalize`, as a structure (its five top-level
keys are fixed); the `rates` sub-dict is flattened into four fields. -/
structure NormalizedRecord where
  utility : String
  source : String
  source_url : String
  fetched_at : String
  rates_residential_standard : Dict
  rates_residential_supplemental : Dict
  rates_residential_seasonal : Dict
  rates_residential_tou : Dict

/-- Embedding of `normalize` from `cemc_rates/normalizer.py`. The wall
clock read for `fetched_at` is passed in as `now`. The defensive
`parsed.get(sec, {}) or {}` cannot fire on a `ParsedDocument` (all four
section keys are always present and dict-valued), so the sections are read
directly. -/
def normalize (now : String) (parsed : ParsedDocument) : NormalizedRecord :=
  let rs := parsed.residential_standard
  let srs := parsed.residential_supplemental
  { utility := "CEMC",
    source := "CEMC Current Rates PDF",
    source_url := "https://cemc.org/my-account/#residential-rates",
    fetched_at := now,
    rates_residential_standard :=
      [("is_present", dGetD rs "is_present" (Val.bool false)),
       ("customer_charge_monthly_usd", dGet rs "customer_charge_usd_per_month"),
       ("energy_rate_usd_per_kwh", dGet rs "energy_rate_usd_per_kwh"),
       ("energy_rate_cents_per_kwh", _cents (dGet rs "energy_rate_usd_per_kwh")),
       ("tva_fuel_rate_usd_per_kwh", dGet rs "tva_fuel_rate_usd_per_kwh"),
       ("tva_fuel_rate_cents_per_kwh", _cents (dGet rs "tva_fuel_rate_usd_per_kwh")),
       ("raw_section", dGet rs "raw_section")],
    rates_residential_supplemental :=
      [("is_present", dGetD srs "is_present" (Val.bool false)),
       ("customer_charge_part_a_monthly_usd", dGet srs "customer_charge_part_a_usd_per_month"),
       ("customer_charge_part_b_monthly_usd", dGet srs "customer_charge_part_b_usd_per_month"),
       ("energy_rate_usd_per_kwh", dGet srs "energy_rate_usd_per_kwh"),
       ("energy_rate_cents_per_kwh", _cents (dGet srs "energy_rate_usd_per_kwh")),
       ("tva_fuel_rate_usd_per_kwh", dGet srs "tva_fuel_rate_usd_per_kwh"),
       ("tva_fuel_rate_cents_per_kwh", _cents (dGet srs "tva_fuel_rate_usd_per_kwh")),
       ("raw_section", dGet srs "raw_section")],
    rates_residential_seasonal := parsed.residential_seasonal,
    rates_residential_tou := parsed.residential_tou }

/-- A comparison summary (and also a loaded snapshot): a dict mapping
section names to per-field dicts. -/
abbrev Summary := List (String × Dict)

/-- Model of `summary.get(section, {})` in `diff_summaries`. -/
def dGetDict (s : Summary) (k : String) : Dict :=
  (alookup k s).getD []

/-- Embedding of the `FieldChange` dataclass from `cemc_rates/diffing.py`
(`section` is a Lean keyword, so that field is named `sect`). -/
structure FieldChange where
  sect : String
  field : String
  old : Val
  new : Val
deriving DecidableEq

/-- The fixed section iteration order of `diff_summaries`. -/
def sectionNames : List String :=
  ["residential_standard", "residential_supplemental"]

/-- Model of `sorted(set(a) | set(b))` on key lists: the distinct keys in
lexicographic order. -/
def pySortedUnion (a b : List String) : List String :=
  List.insertionSort (fun x y => x ≤ y) ((a ++ b).dedup)

/-- Body of the per-section loop of `diff_summaries`: one `FieldChange` per
field of the sorted key union whose values differ. -/
def diffSection (current baseline : Summary) (sec : String) : List FieldChange :=
  (pySortedUnion (dKeys (dGetDict current sec)) (dKeys (dGetDict baseline sec))).filterMap
    (fun f =>
      if dGet (dGetDict baseline sec) f = dGet (dGetDict current sec) f then none
      else some { sect := sec, field := f, old := dGet (dGetDict baseline sec) f,
                  new := dGet (dGetDict current sec) f })

/-- Embedding of `diff_summaries` from `cemc_rates/diffing.py`. -/
def diff_summaries (current baseline : Summary) : List FieldChange :=
  sectionNames.flatMap (fun sec => diffSection current baseline sec)

/-- Embedding of `extract_residential_summary` from `cemc_rates/diffing.py`
over a parsed-document dict. The `raw_text` entry of a real parse result is
string-valued and never read here, so the input is modelled as the dict of
section records; `parsed["residential_standard"]` raises `KeyError` when
absent, hence the `Except`. -/
def extract_residential_summary (parsed : List (String × Dict)) : Except String Summary :=
  match bracket parsed "residential_standard", bracket parsed "residential_supplemental" with
  | Except.error e, _ => Except.error e
  | Except.ok _, Except.error e => Except.error e
  | Except.ok rs, Except.ok srs => Except.ok
    [("residential_standard",
      [("customer_charge", dGet rs "customer_charge_usd_per_month"),
       ("energy_rate", dGet rs "energy_rate_usd_per_kwh"),
       ("tva_fuel_rate", dGet rs "tva_fuel_rate_usd_per_kwh")]),
     ("residential_supplemental",
      [("part_a", dGet srs "customer_charge_part_a_usd_per_month"),
       ("part_b", dGet srs "customer_charge_part_b_usd_per_month"),
       ("energy_rate", dGet srs "energy_rate_usd_per_kwh"),
       ("tva_fuel_rate", dGet srs "tva_fuel_rate_usd_per_kwh")])]

/-- The section-record entries of a `ParsedDocument`, in the dict form
`extract_residential_summary` consumes. -/
def ParsedDocument.sections (p : ParsedDocument) : List (String × Dict) :=
  [("residential_standard", p.residential_standard),
   ("residential_supplemental", p.residential_supplemental),
   ("residential_seasonal", p.residential_seasonal),
   ("residential_tou", p.residential_tou)]

/-- Model of Python `str()` on a field value. Float rendering is not
observable by any verified claim (only the fixed empty-input sentinels
are), so a float is shown as `numerator/denominator`. -/
def pyStr (v : Val) : String :=
  match v with
  | Val.null => "None"
  | Val.bool b => if b then "True" else "False"
  | Val.num q => toString q.num ++ "/" ++ toString q.den
  | Val.str s => String.mk s

/-- One step of the `by_section.setdefault(ch.section, []).append(ch)`
grouping: append to the section's bucket, keeping first-seen bucket
order. -/
def addToSection (acc : List (String × List FieldChange)) (ch : FieldChange) :
    List (String × List FieldChange) :=
  match acc with
  | [] => [(ch.sect, [ch])]
  | (s, chs) :: rest =>
    if s = ch.sect then (s, chs ++ [ch]) :: rest
    else (s, chs) :: addToSection rest ch

def groupBySection (changes : List FieldChange) : List (String × List FieldChange) :=
  changes.foldl addToSection []

/-- Embedding of `format_changes_markdown` from `cemc_rates/diffing.py`. -/
def format_changes_markdown (changes : List FieldChange) : String :=
  if changes = [] then "No changes detected."
  else
    let header := ["The following rate changes were detected:\n"]
    let body := (groupBySection changes).flatMap (fun sc =>
      ["### " ++ sc.1, ""] ++
        sc.2.map (fun ch =>
          "- **" ++ ch.field ++ "**: `" ++ pyStr ch.old ++ "` → `" ++ pyStr ch.new ++ "`") ++
        [""])
    String.intercalate "\n" (header ++ body)

/-- Embedding of `format_changes_console` from `cemc_rates/diffing.py`. -/
def format_changes_console (changes : List FieldChange) : String :=
  if changes = [] then "No changes detected."
  else
    String.intercalate "\n"
      ("Changes detected:\n" ::
        changes.map (fun ch =>
          "[" ++ ch.sect ++ "] " ++ ch.field ++ ": " ++ pyStr ch.old ++ " -> " ++ pyStr ch.new))

/-- The `DEFAULT_SNAPSHOT_PATH` constant of `cemc_rates/diffing.py`. -/
def DEFAULT_SNAPSHOT_PATH : String := "snapshots/residential_v1.json"

/-- Embedding of `load_snapshot`: the filesystem is abstracted as the
optional parsed content of the file at `path` (`none` when the file is
absent, in which case `FileNotFoundError` is raised with the shown
message). -/
def load_snapshot (path : String) (file : Option Summary) : Except String Summary :=
  match file with
  | none => Except.error ("Snapshot file not found: " ++ path)
  | some snap => Except.ok snap

/-- Embedding of the diff path of `main` in
`tools/check_rate_change_and_open_issue.py`: load the snapshot, restrict it
to the two residential sections, and diff the current summary against it.
Logging and the issue-opening side effect are elided; an uncaught Python
exception is the `Except.error` case. -/
def check_rate_change (path : String) (file : Option Summary)
    (current_summary : Summary) : Except String (List FieldChange) := do
  let baseline ← load_snapshot path file
  let rs ← bracket baseline "residential_standard"
  let srs ← bracket baseline "residential_supplemental"
  let baseline_summary : Summary :=
    [("residential_standard", rs), ("residential_supplemental", srs)]
  Except.ok (diff_summaries current_summary baseline_summary)

/-- Is `needle` a prefix of `hay` (by character equality)? -/
def startsWithChars : List Char → List Char → Bool
  | [], _ => true
  | _ :: _, [] => false
  | a :: as, b :: bs => a == b && startsWithChars as bs

/-- Does `hay` contain `needle` as a contiguous substring? -/
def containsChars (needle : List Char) : List Char → Bool
  | [] => startsWithChars needle []
  | c :: rest => startsWithChars needle (c :: rest) || containsChars needle rest

/-- Is a value a float or `None` (the declared type of the parser's numeric
fields)? -/
def isNumOrNull (v : Val) : Bool :=
  match v with
  | Val.null => true
  | Val.num _ => true
  | _ => false

/-- The cents-derivation contract of the spec for one usd/cents field pair:
the cents value is null exactly when the usd value is, and otherwise is the
usd value times 100 rounded to 5 decimal places. -/
def centsSpec (u c : Val) : Prop :=
  (c = Val.null ↔ u = Val.null) ∧
  ∀ q : ℚ, u = Val.num q → c = Val.num (round5 (q * 100))

/-- The end-to-end scenario text of the spec (§8.6): the three labelled
fragments in order. -/
def scenarioText : String :=
  "Customer Charge: $39.00 ... Energy Charge: $.08058 per kWh ... TVA Fuel Charge: $.02177 per kWh"

/-- A text that also contains all three scenario fragments, but with an
earlier `Customer Charge` occurrence that the leftmost regex search finds
first. -/
def badScenarioText : String :=
  "Customer Charge: $1 Customer Charge: $39.00 Energy Charge: $.08058 per kWh TVA Fuel Charge: $.02177 per kWh"

/-!
## Theorems

Shared helper lemmas first, then one theorem per claim (with its witness or
counterexample where required).
-/

/-- Sanity check for the kernel-friendly multiplication: `ratMulNat` is
ordinary rational multiplication. -/
theorem ratMulNat_eq (q : ℚ) (k : Nat) : ratMulNat q k = q * (k : ℚ) := by
  have hden : ((q.den : ℚ)) ≠ 0 := by exact_mod_cast q.den_nz
  have hq : ((q.num : ℚ)) = q * (q.den : ℚ) := (div_eq_iff hden).mp (Rat.num_div_den q)
  rw [ratMulNat, Rat.mkRat_eq_div]
  push_cast
  rw [div_eq_iff hden, hq]
  ring

theorem mem_pySortedUnion {a b : List String} {f : String} :
    f ∈ pySortedUnion a b ↔ f ∈ a ∨ f ∈ b := by
  rw [pySortedUnion, (List.perm_insertionSort _ _).mem_iff, List.mem_dedup, List.mem_append]

theorem nodup_pySortedUnion (a b : List String) : (pySortedUnion a b).Nodup :=
  (List.perm_insertionSort _ ((a ++ b).dedup)).symm.nodup (List.nodup_dedup _)

theorem pairwise_lt_pySortedUnion (a b : List String) :
    (pySortedUnion a b).Pairwise (fun x y => x < y) := by
  have hs : List.Sorted (fun x y => x ≤ y) (pySortedUnion a b) :=
    List.sorted_insertionSort _ _
  exact hs.lt_of_le (nodup_pySortedUnion a b)

theorem mem_diffSection {cur base : Summary} {sec : String} {c : FieldChange} :
    c ∈ diffSection cur base sec ↔
      c.sect = sec ∧
      (c.field ∈ dKeys (dGetDict cur sec) ∨ c.field ∈ dKeys (dGetDict base sec)) ∧
      c.old = dGet (dGetDict base sec) c.field ∧
      c.new = dGet (dGetDict cur sec) c.field ∧
      c.old ≠ c.new := by
  rw [diffSection, List.mem_filterMap]
  constructor
  · rintro ⟨f, hf, hsome⟩
    by_cases h : dGet (dGetDict base sec) f = dGet (dGetDict cur sec) f
    · rw [if_pos h] at hsome
      cases hsome
    · rw [if_neg h] at hsome
      cases hsome
      exact ⟨rfl, mem_pySortedUnion.mp hf, rfl, rfl, h⟩
  · rintro ⟨h1, h2, h3, h4, h5⟩
    refine ⟨c.field, mem_pySortedUnion.mpr h2, ?_⟩
    have hne : dGet (dGetDict base sec) c.field ≠ dGet (dGetDict cur sec) c.field := by
      rw [← h3, ← h4]; exact h5
    rw [if_neg hne]
    cases c
    simp only at h1 h3 h4
    rw [h1, ← h3, ← h4]

theorem sect_of_mem_diffSection {cur base : Summary} {sec : String} {c : FieldChange}
    (h : c ∈ diffSection cur base sec) : c.sect = sec :=
  (mem_diffSection.mp h).1

theorem pairwise_filterMap_fields {g : String → Option FieldChange} {sec : String}
    (hg : ∀ f c, g f = some c → c.sect = sec ∧ c.field = f) :
    ∀ l : List String, l.Pairwise (fun x y => x < y) →
      (l.filterMap g).Pairwise (fun x y => x.sect = y.sect ∧ x.field < y.field) := by
  intro l
  induction l with
  | nil => intro _; simp
  | cons f fs ih =>
    intro hp
    rw [List.pairwise_cons] at hp
    rw [List.filterMap_cons]
    cases hgf : g f with
    | none => exact ih hp.2
    | some c =>
      refine List.Pairwise.cons ?_ (ih hp.2)
      intro d hd
      rw [List.mem_filterMap] at hd
      obtain ⟨f2, hf2, hgf2⟩ := hd
      obtain ⟨hc1, hc2⟩ := hg f c hgf
      obtain ⟨hd1, hd2⟩ := hg f2 d hgf2
      refine ⟨by rw [hc1, hd1], ?_⟩
      rw [hc2, hd2]
      exact hp.1 f2 hf2

theorem pairwise_diffSection (cur base : Summary) (sec : String) :
    (diffSection cur base sec).Pairwise (fun x y => x.sect = y.sect ∧ x.field < y.field) := by
  rw [diffSection]
  refine @pairwise_filterMap_fields _ sec ?_ _ (pairwise_lt_pySortedUnion _ _)
  intro f c h
  by_cases hc : dGet (dGetDict base sec) f = dGet (dGetDict cur sec) f
  · rw [if_pos hc] at h; cases h
  · rw [if_neg hc] at h; cases h; exact ⟨rfl, rfl⟩

theorem diffSection_self (s : Summary) (sec : String) : diffSection s s sec = [] := by
  rw [diffSection]
  rw [List.filterMap_eq_nil_iff]
  intro f _
  rw [if_pos rfl]

theorem diff_summaries_self (s : Summary) : diff_summaries s s = [] := by
  simp [diff_summaries, sectionNames, diffSection_self]

theorem foldl_min_mem (e : Nat) (es : List Nat) : es.foldl min e ∈ e :: es := by
  induction es generalizing e with
  | nil => simp
  | cons a as ih =>
    rw [List.foldl_cons]
    rcases List.mem_cons.mp (ih (min e a)) with h | h
    · rcases le_total e a with h2 | h2
      · rw [h, min_eq_left h2]; exact List.mem_cons_self _ _
      · rw [h, min_eq_right h2]
        exact List.mem_cons_of_mem _ (List.mem_cons_self _ _)
    · exact List.mem_cons_of_mem _ (List.mem_cons_of_mem _ h)

theorem foldl_min_le (e : Nat) (es : List Nat) : ∀ x ∈ e :: es, es.foldl min e ≤ x := by
  induction es generalizing e with
  | nil =>
    intro x hx
    rw [List.mem_singleton] at hx
    rw [hx, List.foldl_nil]
  | cons a as ih =>
    intro x hx
    rw [List.foldl_cons]
    have hhead : as.foldl min (min e a) ≤ min e a :=
      ih (min e a) (min e a) (List.mem_cons_self _ _)
    rcases List.mem_cons.mp hx with h | hx2
    · rw [h]; exact le_trans hhead (min_le_left _ _)
    · rcases List.mem_cons.mp hx2 with h | h
      · rw [h]; exact le_trans hhead (min_le_right _ _)
      · exact ih (min e a) x (List.mem_cons_of_mem _ h)

theorem find_section_cons_eq (text : List Char) (header : List QTok) (n : List QTok)
    (ns : List (List QTok)) (s0 : Nat) (hs : searchPos header text 0 = some s0) :
    _find_section text header (n :: ns) =
      match (n :: ns).filterMap (fun pat => searchPos pat text (s0 + 1)) with
      | [] => some (text.drop s0)
      | e :: es => some ((text.drop s0).take (es.foldl min e - s0)) := by
  unfold _find_section
  rw [hs]

theorem startsWithChars_self_append (n s : List Char) :
    startsWithChars n (n ++ s) = true := by
  induction n with
  | nil => rfl
  | cons c cs ih => simp [startsWithChars, ih]

theorem containsChars_append_self (pre n : List Char) :
    containsChars n (pre ++ n) = true := by
  induction pre with
  | nil =>
    cases hn : n with
    | nil => rfl
    | cons c cs =>
      have h := startsWithChars_self_append (c :: cs) []
      rw [List.append_nil] at h
      simp [containsChars, h]
  | cons p ps ih =>
    simp [containsChars, ih]

theorem string_data_append (a b : String) : (a ++ b).data = a.data ++ b.data := rfl

/-- `_cents` satisfies the cents contract on any float-or-null value. -/
theorem centsSpec_of (u : Val) (h : isNumOrNull u = true) : centsSpec u (_cents u) := by
  cases u with
  | null =>
    exact ⟨Iff.rfl, fun q hq => by cases hq⟩
  | num q =>
    constructor
    · constructor
      · intro hc; cases hc
      · intro hu; cases hu
    · intro q2 hq2
      cases hq2
      show Val.num (round5 (ratMulNat q 100)) = Val.num (round5 (q * 100))
      rw [ratMulNat_eq]
      norm_num
  | bool b => simp [isNumOrNull] at h
  | str s => simp [isNumOrNull] at h

/-- C4: for every ParsedDocument `P`, summarizing `P` succeeds and diffing
the summary against itself yields the empty change list
(`diff(summarize(P), summarize(P)) = []`). -/
theorem claim4_diff_self_empty (P : ParsedDocument) :
    (∃ s, extract_residential_summary P.sections = Except.ok s) ∧
    (∀ s, extract_residential_summary P.sections = Except.ok s →
      diff_summaries s s = []) := by
  constructor
  · exact ⟨_, rfl⟩
  · intro s _
    exact diff_summaries_self s

/-- C4 witness: the theorem applied to a concrete ParsedDocument with empty
section records; its summary is the all-null summary and its self-diff is
empty. -/
theorem claim4_witness :
    diff_summaries
      [("residential_standard",
        [("customer_charge", Val.null), ("energy_rate", Val.null),
         ("tva_fuel_rate", Val.null)]),
       ("residential_supplemental",
        [("part_a", Val.null), ("part_b", Val.null), ("energy_rate", Val.null),
         ("tva_fuel_rate", Val.null)])]
      [("residential_standard",
        [("customer_charge", Val.null), ("energy_rate", Val.null),
         ("tva_fuel_rate", Val.null)]),
       ("residential_supplemental",
        [("part_a", Val.null), ("part_b", Val.null), ("energy_rate", Val.null),
         ("tva_fuel_rate", Val.null)])] = [] :=
  (claim4_diff_self_empty (ParsedDocument.mk [] [] [] [] [])).2 _ rfl

/-- C7 counterexample: the claim asserts the empty-input sentinel text is
distinct per renderer, but both renderers return the very same string. -/
theorem claim7_counterexample :
    format_changes_markdown [] = format_changes_console [] := rfl

/-- C7 as amended: on an empty change list both renderers return the fixed
non-empty sentinel "No changes detected." — the same string for both, not
distinct texts. -/
theorem claim7_same_sentinel :
    format_changes_markdown [] = "No changes detected." ∧
    format_changes_console [] = "No changes detected." ∧
    ("No changes detected." : String) ≠ "" := by
  refine ⟨rfl, rfl, ?_⟩
  decide

/-- C8 counterexample: with the snapshot file absent at the default path,
the raised error's message is exactly "Snapshot file not found: " followed
by the path; it contains neither "generate" nor "update", so it does not
instruct how to generate a snapshot as the claim asserts. -/
theorem claim8_counterexample :
    load_snapshot DEFAULT_SNAPSHOT_PATH none =
      Except.error "Snapshot file not found: snapshots/residential_v1.json" ∧
    containsChars "generate".data
      "Snapshot file not found: snapshots/residential_v1.json".data = false ∧
    containsChars "update".data
      "Snapshot file not found: snapshots/residential_v1.json".data = false := by
  refine ⟨rfl, ?_, ?_⟩ <;> decide

/-- C8 as amended: whenever the snapshot file is absent, the diff job fails
with an error whose message includes the snapshot path (but carries no
instructions for generating a snapshot), and it never returns a change
list — in particular it never reports an empty one. -/
theorem claim8_missing_snapshot (path : String) (cur : Summary) :
    check_rate_change path none cur =
      Except.error ("Snapshot file not found: " ++ path) ∧
    containsChars path.data ("Snapshot file not found: " ++ path).data = true ∧
    ∀ l : List FieldChange, check_rate_change path none cur ≠ Except.ok l := by
  refine ⟨rfl, ?_, ?_⟩
  · rw [string_data_append]
    exact containsChars_append_self _ _
  · intro l h
    cases h

/-- C8 witness: the amended theorem applied at the default snapshot path
with an empty current summary. -/
theorem claim8_witness :
    check_rate_change DEFAULT_SNAPSHOT_PATH none [] =
      Except.error ("Snapshot file not found: " ++ DEFAULT_SNAPSHOT_PATH) :=
  (claim8_missing_snapshot DEFAULT_SNAPSHOT_PATH []).1

/-- C1: `diff_summaries current baseline` contains a change for exactly the
(section, field) pairs — section one of the two residential sections, field
in the key union of the two sides — whose values differ (null as a distinct
sentinel via the `get` accessor), with `old` the baseline value and `new`
the current value; the key pairs are pairwise distinct (exactly one entry
each); and the list is ordered with all standard-section entries before all
supplemental ones and fields in strictly increasing lexicographic order
within a section. -/
theorem claim1_diff_exact (cur base : Summary) :
    (∀ c : FieldChange, c ∈ diff_summaries cur base ↔
      ((c.sect = "residential_standard" ∨ c.sect = "residential_supplemental") ∧
       (c.field ∈ dKeys (dGetDict cur c.sect) ∨ c.field ∈ dKeys (dGetDict base c.sect)) ∧
       c.old = dGet (dGetDict base c.sect) c.field ∧
       c.new = dGet (dGetDict cur c.sect) c.field ∧
       c.old ≠ c.new)) ∧
    ((diff_summaries cur base).map (fun c => (c.sect, c.field))).Nodup ∧
    (diff_summaries cur base).Pairwise (fun x y =>
      (x.sect = "residential_standard" ∧ y.sect = "residential_supplemental") ∨
      (x.sect = y.sect ∧ x.field < y.field)) := by
  have hpw : (diff_summaries cur base).Pairwise (fun x y =>
      (x.sect = "residential_standard" ∧ y.sect = "residential_supplemental") ∨
      (x.sect = y.sect ∧ x.field < y.field)) := by
    rw [diff_summaries, sectionNames]
    rw [List.flatMap_cons, List.flatMap_cons, List.flatMap_nil, List.append_nil]
    rw [List.pairwise_append]
    refine ⟨?_, ?_, ?_⟩
    · exact (pairwise_diffSection cur base _).imp (fun h => Or.inr h)
    · exact (pairwise_diffSection cur base _).imp (fun h => Or.inr h)
    · intro a ha b hb
      exact Or.inl ⟨sect_of_mem_diffSection ha, sect_of_mem_diffSection hb⟩
  refine ⟨?_, ?_, hpw⟩
  · intro c
    rw [diff_summaries, List.mem_flatMap]
    constructor
    · rintro ⟨sec, hsec, hc⟩
      obtain ⟨h1, h2, h3, h4, h5⟩ := mem_diffSection.mp hc
      rw [← h1] at hsec h2 h3 h4
      simp only [sectionNames, List.mem_cons, List.mem_singleton,
        List.not_mem_nil, or_false] at hsec
      exact ⟨hsec, h2, h3, h4, h5⟩
    · rintro ⟨hsec, h2, h3, h4, h5⟩
      refine ⟨c.sect, ?_, mem_diffSection.mpr ⟨rfl, h2, h3, h4, h5⟩⟩
      simp only [sectionNames, List.mem_cons, List.mem_singleton]
      tauto
  · have hne : ∀ x y : FieldChange,
        ((x.sect = "residential_standard" ∧ y.sect = "residential_supplemental") ∨
          (x.sect = y.sect ∧ x.field < y.field)) →
        (fun c => (c.sect, c.field)) x ≠ (fun c => (c.sect, c.field)) y := by
      rintro x y (⟨hx, hy⟩ | ⟨hxy, hlt⟩) heq
      · rw [Prod.mk.injEq] at heq
        rw [heq.1, hy] at hx
        exact absurd hx (by decide)
      · rw [Prod.mk.injEq] at heq
        exact absurd heq.2 (ne_of_lt hlt)
    exact List.Pairwise.map _ hne hpw

/-- C1 witness: the theorem applied to concrete one-field summaries; the
single differing field yields its change as a member of the diff. -/
theorem claim1_witness :
    (FieldChange.mk "residential_standard" "energy_rate" (Val.num 1) (Val.num 2)) ∈
      diff_summaries
        [("residential_standard", [("energy_rate", Val.num 2)])]
        [("residential_standard", [("energy_rate", Val.num 1)])] :=
  ((claim1_diff_exact
      [("residential_standard", [("energy_rate", Val.num 2)])]
      [("residential_standard", [("energy_rate", Val.num 1)])]).1 _).mpr
    ⟨Or.inl rfl, Or.inl (by decide), rfl, rfl, by decide⟩

/-- C2: in the record returned by `normalize`, for both residential rate
sections, each `*_cents_per_kwh` field is its corresponding
`*_usd_per_kwh` field times 100 rounded to 5 decimal places when the usd
field is non-null, and is null exactly when the usd field is null. The
hypotheses say the usd fields carry their declared float-or-None type. -/
theorem claim2_normalize_cents (now : String) (parsed : ParsedDocument)
    (h1 : isNumOrNull (dGet parsed.residential_standard "energy_rate_usd_per_kwh") = true)
    (h2 : isNumOrNull (dGet parsed.residential_standard "tva_fuel_rate_usd_per_kwh") = true)
    (h3 : isNumOrNull (dGet parsed.residential_supplemental "energy_rate_usd_per_kwh") = true)
    (h4 : isNumOrNull (dGet parsed.residential_supplemental "tva_fuel_rate_usd_per_kwh") = true) :
    centsSpec
      (dGet ((normalize now parsed).rates_residential_standard) "energy_rate_usd_per_kwh")
      (dGet ((normalize now parsed).rates_residential_standard) "energy_rate_cents_per_kwh") ∧
    centsSpec
      (dGet ((normalize now parsed).rates_residential_standard) "tva_fuel_rate_usd_per_kwh")
      (dGet ((normalize now parsed).rates_residential_standard) "tva_fuel_rate_cents_per_kwh") ∧
    centsSpec
      (dGet ((normalize now parsed).rates_residential_supplemental) "energy_rate_usd_per_kwh")
      (dGet ((normalize now parsed).rates_residential_supplemental) "energy_rate_cents_per_kwh") ∧
    centsSpec
      (dGet ((normalize now parsed).rates_residential_supplemental) "tva_fuel_rate_usd_per_kwh")
      (dGet ((normalize now parsed).rates_residential_supplemental) "tva_fuel_rate_cents_per_kwh") :=
  ⟨centsSpec_of _ h1, centsSpec_of _ h2, centsSpec_of _ h3, centsSpec_of _ h4⟩

/-- C2 witness: the theorem applied to a concrete ParsedDocument whose
standard section carries `energy_rate_usd_per_kwh = 1/2`; the derived cents
field is `round5(1/2 * 100)`. -/
theorem claim2_witness :
    dGet ((normalize "t" (ParsedDocument.mk []
        [("energy_rate_usd_per_kwh", Val.num (mkRat 1 2))] [] [] [])).rates_residential_standard)
      "energy_rate_cents_per_kwh" = Val.num (round5 (mkRat 1 2 * 100)) :=
  ((claim2_normalize_cents "t"
      (ParsedDocument.mk [] [("energy_rate_usd_per_kwh", Val.num (mkRat 1 2))] [] [] [])
      (by decide) (by decide) (by decide) (by decide)).1).2 (mkRat 1 2) rfl

/-- C3: on any input text where a residential section's header pattern has
no match, `_find_section` returns null and the produced section record has
`is_present = false`, `raw_section = null`, and every numeric field reads
as null. -/
theorem claim3_absent_section (text : List Char) :
    (searchPos rsHeaderPat text 0 = none →
      _find_section text rsHeaderPat [srsHeaderPat, gpHeaderPat] = none ∧
      dGet ((parse_pdf_text text).residential_standard) "is_present" = Val.bool false ∧
      dGet ((parse_pdf_text text).residential_standard) "raw_section" = Val.null ∧
      dGet ((parse_pdf_text text).residential_standard) "customer_charge_usd_per_month" = Val.null ∧
      dGet ((parse_pdf_text text).residential_standard) "energy_rate_usd_per_kwh" = Val.null ∧
      dGet ((parse_pdf_text text).residential_standard) "tva_fuel_rate_usd_per_kwh" = Val.null) ∧
    (searchPos srsHeaderPat text 0 = none →
      _find_section text srsHeaderPat [gpHeaderPat] = none ∧
      dGet ((parse_pdf_text text).residential_supplemental) "is_present" = Val.bool false ∧
      dGet ((parse_pdf_text text).residential_supplemental) "raw_section" = Val.null ∧
      dGet ((parse_pdf_text text).residential_supplemental)
        "customer_charge_part_a_usd_per_month" = Val.null ∧
      dGet ((parse_pdf_text text).residential_supplemental)
        "customer_charge_part_b_usd_per_month" = Val.null ∧
      dGet ((parse_pdf_text text).residential_supplemental) "energy_rate_usd_per_kwh" = Val.null ∧
      dGet ((parse_pdf_text text).residential_supplemental) "tva_fuel_rate_usd_per_kwh" = Val.null) := by
  constructor
  · intro h
    have hf : _find_section text rsHeaderPat [srsHeaderPat, gpHeaderPat] = none := by
      unfold _find_section; rw [h]
    have hrec : (parse_pdf_text text).residential_standard =
        parse_residential_standard (_find_section text rsHeaderPat [srsHeaderPat, gpHeaderPat]) :=
      rfl
    refine ⟨hf, ?_, ?_, ?_, ?_, ?_⟩ <;> (rw [hrec, hf]; rfl)
  · intro h
    have hf : _find_section text srsHeaderPat [gpHeaderPat] = none := by
      unfold _find_section; rw [h]
    have hrec : (parse_pdf_text text).residential_supplemental =
        parse_residential_supplemental (_find_section text srsHeaderPat [gpHeaderPat]) :=
      rfl
    refine ⟨hf, ?_, ?_, ?_, ?_, ?_, ?_⟩ <;> (rw [hrec, hf]; rfl)

/-- C3 witness: the theorem applied to the empty text, in which neither
header matches; the standard-section locator returns null and the numeric
fields read as null. -/
theorem claim3_witness :
    _find_section [] rsHeaderPat [srsHeaderPat, gpHeaderPat] = none ∧
    dGet ((parse_pdf_text []).residential_standard) "energy_rate_usd_per_kwh" = Val.null := by
  have h := (claim3_absent_section []).1 (by decide)
  exact ⟨h.1, h.2.2.2.2.1⟩

/-- C5: the section locator returns null iff the header pattern has no
match; when the header first matches at offset `s` and there are no
next-header patterns, it returns the text from `s` to the end; otherwise
each next-header pattern is searched strictly after `s`, and the section
ends at the minimum matched start offset, or runs to the end of the text if
no next-header pattern matched. -/
theorem claim5_find_section_spec (text : List Char) (header : List QTok)
    (nexts : List (List QTok)) :
    (_find_section text header nexts = none ↔ searchPos header text 0 = none) ∧
    (∀ s, searchPos header text 0 = some s →
      (nexts = [] → _find_section text header nexts = some (text.drop s)) ∧
      (nexts.filterMap (fun p => searchPos p text (s + 1)) = [] →
        _find_section text header nexts = some (text.drop s)) ∧
      (∀ m ms, nexts.filterMap (fun p => searchPos p text (s + 1)) = m :: ms →
        ∃ e, e ∈ nexts.filterMap (fun p => searchPos p text (s + 1)) ∧
          (∀ x ∈ nexts.filterMap (fun p => searchPos p text (s + 1)), e ≤ x) ∧
          _find_section text header nexts = some ((text.drop s).take (e - s)))) := by
  cases hs : searchPos header text 0 with
  | none =>
    have hf : _find_section text header nexts = none := by
      unfold _find_section; rw [hs]
    refine ⟨by simp [hf], ?_⟩
    intro s hs2
    cases hs2
  | some s0 =>
    cases nexts with
    | nil =>
      have hfs : _find_section text header [] = some (text.drop s0) := by
        unfold _find_section; rw [hs]
      constructor
      · constructor
        · intro hn; rw [hfs] at hn; cases hn
        · intro hn; cases hn
      · intro s hs2
        injection hs2 with he
        subst he
        refine ⟨fun _ => hfs, fun _ => hfs, ?_⟩
        intro m ms hc
        rw [List.filterMap_nil] at hc
        cases hc
    | cons n ns =>
      cases hfm : (n :: ns).filterMap (fun pat => searchPos pat text (s0 + 1)) with
      | nil =>
        have hfs : _find_section text header (n :: ns) = some (text.drop s0) := by
          rw [find_section_cons_eq text header n ns s0 hs, hfm]
        constructor
        · constructor
          · intro hn; rw [hfs] at hn; cases hn
          · intro hn; cases hn
        · intro s hs2
          injection hs2 with he
          subst he
          refine ⟨?_, ?_, ?_⟩
          · intro hn; cases hn
          · intro _; exact hfs
          · intro m ms hc
            rw [hfm] at hc
            cases hc
      | cons m0 ms0 =>
        have hfs : _find_section text header (n :: ns) =
            some ((text.drop s0).take (ms0.foldl min m0 - s0)) := by
          rw [find_section_cons_eq text header n ns s0 hs, hfm]
        constructor
        · constructor
          · intro hn; rw [hfs] at hn; cases hn
          · intro hn; cases hn
        · intro s hs2
          injection hs2 with he
          subst he
          refine ⟨?_, ?_, ?_⟩
          · intro hn; cases hn
          · intro hc
            rw [hfm] at hc
            cases hc
          · intro m ms hc
            rw [hfm] at hc
            injection hc with h1 h2
            subst h1
            subst h2
            have hmem := foldl_min_mem m0 ms0
            have hle := foldl_min_le m0 ms0
            rw [← hfm] at hmem hle
            exact ⟨ms0.foldl min m0, hmem, hle, hfs⟩

/-- C5 witness: the theorem applied to concrete text "ab" and the
single-character header pattern `B`, found case-insensitively at offset 1
with no next-header bound: the section runs to the end of the text. -/
theorem claim5_witness :
    _find_section "ab".data [QTok.mk (Tok.lit 'B') Quant.one] [] = some ['b'] :=
  ((claim5_find_section_spec "ab".data [QTok.mk (Tok.lit 'B') Quant.one] []).2
      1 (by decide)).1 rfl

theorem dropWhile_eq_self_of {p : Char → Bool} {l : List Char}
    (h : ∀ c ∈ l, p c = false) : l.dropWhile p = l := by
  cases l with
  | nil => rfl
  | cons a as => simp [List.dropWhile_cons, h a (List.mem_cons_self _ _)]

theorem pyStrip_eq_self {l : List Char} (h : ∀ c ∈ l, isPySpace c = false) :
    pyStrip l = l := by
  unfold pyStrip
  rw [dropWhile_eq_self_of h]
  rw [dropWhile_eq_self_of (fun c hc => h c (List.mem_reverse.mp hc))]
  exact List.reverse_reverse l

/-- C6: numeric field extraction is null — and never an exception — exactly
when the label pattern does not match or the captured literal fails the
conversion; `_clean_float` is insensitive to thousands-separator commas and
to prepending the zero it adds to a bare-decimal literal (stated for
whitespace-free literals, the only ones a capture group can produce); and
in both section parsers every field equals its own standalone extraction,
so one field's absence never disturbs its siblings. -/
theorem claim6_extract_robust :
    (∀ (p : FPat) (cs : List Char),
      extract_numeric p cs = none ↔
        searchCap p cs 0 = none ∨
          ∃ g, searchCap p cs 0 = some g ∧ _clean_float (some g) = none) ∧
    (∀ g : List Char,
      _clean_float (some g) = _clean_float (some (g.filter (fun c => c != ',')))) ∧
    (∀ g : List Char, (∀ c ∈ g, isPySpace c = false) → g.head? = some '.' →
      _clean_float (some g) = _clean_float (some ('0' :: g))) ∧
    (∀ cs : List Char, cs ≠ [] →
      dGet (parse_residential_standard (some cs)) "customer_charge_usd_per_month" =
        toVal (extract_numeric custPat cs) ∧
      dGet (parse_residential_standard (some cs)) "energy_rate_usd_per_kwh" =
        toVal (extract_numeric energyPat cs) ∧
      dGet (parse_residential_standard (some cs)) "tva_fuel_rate_usd_per_kwh" =
        toVal (extract_numeric tvaPat cs) ∧
      dGet (parse_residential_supplemental (some cs)) "customer_charge_part_a_usd_per_month" =
        toVal (extract_numeric partAPat cs) ∧
      dGet (parse_residential_supplemental (some cs)) "customer_charge_part_b_usd_per_month" =
        toVal (extract_numeric partBPat cs) ∧
      dGet (parse_residential_supplemental (some cs)) "energy_rate_usd_per_kwh" =
        toVal (extract_numeric energyPat cs) ∧
      dGet (parse_residential_supplemental (some cs)) "tva_fuel_rate_usd_per_kwh" =
        toVal (extract_numeric tvaPat cs)) := by
  refine ⟨?_, ?_, ?_, ?_⟩
  · intro p cs
    rw [extract_numeric]
    cases h : searchCap p cs 0 with
    | none => simp [_clean_float]
    | some g =>
      constructor
      · intro hc
        exact Or.inr ⟨g, rfl, hc⟩
      · rintro (hcontr | ⟨g2, hg2, hc⟩)
        · cases hcontr
        · injection hg2 with he
          subst he
          exact hc
  · intro g
    simp [_clean_float, List.filter_filter]
  · intro g hnospace hhead
    obtain ⟨t, rfl⟩ : ∃ t, g = '.' :: t := by
      cases g with
      | nil => cases hhead
      | cons c cs2 =>
        rw [List.head?_cons] at hhead
        injection hhead with hc
        exact ⟨cs2, by rw [hc]⟩
    have hnsT : ∀ c ∈ t.filter (fun c => c != ','), isPySpace c = false :=
      fun c hc => hnospace c (List.mem_cons_of_mem _ (List.mem_of_mem_filter hc))
    have hns1 : ∀ c ∈ '.' :: t.filter (fun c => c != ','), isPySpace c = false := by
      intro c hc
      rcases List.mem_cons.mp hc with h | h
      · rw [h]; decide
      · exact hnsT c h
    have hns2 : ∀ c ∈ '0' :: '.' :: t.filter (fun c => c != ','), isPySpace c = false := by
      intro c hc
      rcases List.mem_cons.mp hc with h | h
      · rw [h]; decide
      · exact hns1 c h
    have hfL : ('.' :: t).filter (fun c => c != ',') = '.' :: t.filter (fun c => c != ',') := by
      simp
    have hfR : ('0' :: '.' :: t).filter (fun c => c != ',') =
        '0' :: '.' :: t.filter (fun c => c != ',') := by
      simp
    have hpos : (('.' :: t.filter (fun c => c != ',')).head? = some '.') := by
      rw [List.head?_cons]
    have hcond : ¬ (('0' :: '.' :: t.filter (fun c => c != ',')).head? = some '.') := by
      rw [List.head?_cons]
      intro h
      injection h with h2
      exact absurd h2 (by decide)
    simp only [_clean_float]
    rw [hfL, hfR, pyStrip_eq_self hns1, pyStrip_eq_self hns2, if_pos hpos, if_neg hcond]
  · intro cs hne
    refine ⟨?_, ?_, ?_, ?_, ?_, ?_, ?_⟩ <;>
      (simp only [parse_residential_standard, parse_residential_supplemental, if_neg hne]; rfl)

/-- C6 witness: the theorem applied to a concrete section text where the
Customer Charge label pattern has no match; the extraction is null. -/
theorem claim6_witness : extract_numeric custPat "no matching label".data = none :=
  (claim6_extract_robust.1 custPat "no matching label".data).mpr (Or.inl (by decide))

/-- C9 counterexample: a section text that contains all three scenario
fragments but whose earlier `Customer Charge: $1` occurrence wins the
leftmost regex search, so the parsed customer charge is 1.0, not the 39.0
the claim asserts for every text containing the fragments. -/
theorem claim9_counterexample :
    containsChars "Customer Charge: $39.00".data badScenarioText.data = true ∧
    containsChars "Energy Charge: $.08058 per kWh".data badScenarioText.data = true ∧
    containsChars "TVA Fuel Charge: $.02177 per kWh".data badScenarioText.data = true ∧
    dGet (parse_residential_standard (some badScenarioText.data))
      "customer_charge_usd_per_month" = Val.num 1 ∧
    (Val.num 1 : Val) ≠ Val.num 39 := by
  refine ⟨by decide, by decide, by decide, by decide, by decide⟩

/-- C9 as amended: for the spec's end-to-end scenario text itself — the
three fragments in order, with no earlier interfering occurrences —
parsing the standard residential section yields 39.0, 0.08058 and 0.02177,
and the normalized record derives 8.058 cents per kWh. -/
theorem claim9_scenario :
    dGet (parse_residential_standard (some scenarioText.data))
      "customer_charge_usd_per_month" = Val.num 39 ∧
    dGet (parse_residential_standard (some scenarioText.data))
      "energy_rate_usd_per_kwh" = Val.num (mkRat 8058 100000) ∧
    dGet (parse_residential_standard (some scenarioText.data))
      "tva_fuel_rate_usd_per_kwh" = Val.num (mkRat 2177 100000) ∧
    dGet ((normalize "t" (ParsedDocument.mk scenarioText.data
        (parse_residential_standard (some scenarioText.data))
        [] [] [])).rates_residential_standard)
      "energy_rate_cents_per_kwh" = Val.num (mkRat 8058 1000) ∧
    mkRat 8058 100000 = (8058 : ℚ) / 100000 ∧
    mkRat 2177 100000 = (2177 : ℚ) / 100000 ∧
    mkRat 8058 1000 = (8058 : ℚ) / 1000 := by
  refine ⟨by decide, by decide, by decide, by decide, ?_, ?_, ?_⟩ <;>
    · rw [Rat.mkRat_eq_div]; norm_num

/-- C10: on any parsed-document dict that contains both residential section
records, `extract_residential_summary` succeeds (never raises), returns a
summary with exactly the three standard and four supplemental comparison
fields, each read through `get`; a source key absent from a section record
— as in an absent section holding only `is_present`/`raw_section` — reads
as null. -/
theorem claim10_extract_total (pd : List (String × Dict)) (rs srs : Dict)
    (h1 : alookup "residential_standard" pd = some rs)
    (h2 : alookup "residential_supplemental" pd = some srs) :
    extract_residential_summary pd = Except.ok
      [("residential_standard",
        [("customer_charge", dGet rs "customer_charge_usd_per_month"),
         ("energy_rate", dGet rs "energy_rate_usd_per_kwh"),
         ("tva_fuel_rate", dGet rs "tva_fuel_rate_usd_per_kwh")]),
       ("residential_supplemental",
        [("part_a", dGet srs "customer_charge_part_a_usd_per_month"),
         ("part_b", dGet srs "customer_charge_part_b_usd_per_month"),
         ("energy_rate", dGet srs "energy_rate_usd_per_kwh"),
         ("tva_fuel_rate", dGet srs "tva_fuel_rate_usd_per_kwh")])] ∧
    (∀ k, alookup k rs = none → dGet rs k = Val.null) ∧
    (∀ k, alookup k srs = none → dGet srs k = Val.null) := by
  refine ⟨?_, ?_, ?_⟩
  · simp only [extract_residential_summary, bracket, h1, h2]
  · intro k hk
    simp [dGet, hk]
  · intro k hk
    simp [dGet, hk]

/-- C10 witness: the theorem applied to a document whose two residential
records are the absent-section records (only `is_present`/`raw_section`
present); every summary field is null. -/
theorem claim10_witness :
    extract_residential_summary
      [("residential_standard", absentRecord), ("residential_supplemental", absentRecord)] =
      Except.ok
        [("residential_standard",
          [("customer_charge", Val.null), ("energy_rate", Val.null),
           ("tva_fuel_rate", Val.null)]),
         ("residential_supplemental",
          [("part_a", Val.null), ("part_b", Val.null), ("energy_rate", Val.null),
           ("tva_fuel_rate", Val.null)])] :=
  (claim10_extract_total
    [("residential_standard", absentRecord), ("residential_supplemental", absentRecord)]
    absentRecord absentRecord rfl rfl).1

end CemcRates
